import Mathlib

/-!
Shallow embedding of the detour-ranking / POI-canonicalization core of the
Routed memory-assistant repository
(`app/places/canonicalize.py`, `app/detours/corridor.py`, `app/detours/ranker.py`,
`app/models.py`, `app/detours/routes.py`), together with theorems settling the
frozen claims about it.

Python floats are modelled as real numbers; `datetime` values as real-valued
timestamps in seconds.  External collaborators (the Places search/details
client and the memory-retrieval helper) are modelled as explicit oracle
parameters, mirroring the narrow interfaces through which the source consumes
them.  Per-request database contents are modelled as explicit lists of rows.
-/

namespace Routed

noncomputable section

/-! ## Python string helpers

`strContains hay needle` models Python's `needle in hay` (contiguous
substring); `pySplit` models `str.split()` with no argument (split on runs of
whitespace, dropping empty pieces). -/

/-- Does `pre` occur at the head of `l`? (helper for substring search). -/
def charsPrefix : List Char → List Char → Bool
  | [], _ => true
  | _ :: _, [] => false
  | a :: as, b :: bs => a = b && charsPrefix as bs

/-- Does `needle` occur contiguously anywhere in `hay`? -/
def charsContains (hay needle : List Char) : Bool :=
  match hay with
  | [] => charsPrefix needle []
  | _ :: rest => charsPrefix needle hay || charsContains rest needle

/-- Python `needle in hay` on strings. -/
def strContains (hay needle : String) : Bool :=
  charsContains hay.toList needle.toList

/-- Python `s.lower()` (ASCII case mapping, which covers every string this
code base compares). -/
def pyLower (s : String) : String := String.mk (s.data.map Char.toLower)

/-- Python `s.strip()`: drop leading and trailing whitespace. -/
def pyStrip (s : String) : String :=
  String.mk (((s.data.dropWhile Char.isWhitespace).reverse.dropWhile Char.isWhitespace).reverse)

/-- Accumulator-based whitespace splitting for `pySplit`. -/
def splitWsAux : List Char → List Char → List String
  | [], acc => if acc = [] then [] else [String.mk acc.reverse]
  | c :: cs, acc =>
    if c.isWhitespace then
      if acc = [] then splitWsAux cs []
      else String.mk acc.reverse :: splitWsAux cs []
    else splitWsAux cs (c :: acc)

/-- Python `s.split()`: split on runs of whitespace, dropping empty pieces. -/
def pySplit (s : String) : List String := splitWsAux s.data []

/-- Python `sep.join(parts)`. -/
def joinWith (sep : String) : List String → String
  | [] => ""
  | [x] => x
  | x :: xs => x ++ sep ++ joinWith sep xs

/-! ## difflib `SequenceMatcher` (used by `name_similarity`)

The source computes name similarity with
`SequenceMatcher(None, a, b).ratio()`.  We embed the stdlib algorithm
(Ratcliff/Obershelp): `seqFindLongestMatch` is `find_longest_match` and
`seqMatchBlocks` is the recursive content of `get_matching_blocks`, the value
`2*M/T` is returned as a rational.  The junk heuristics are omitted: no junk
predicate is passed by the source, and the `autojunk` popularity heuristic
only fires for strings of length ≥ 200, far beyond place-name inputs. -/

/-- Lookup in an association list of naturals with default 0
(models `j2len.get(j-1, 0)`). -/
def alookup0 (l : List (Nat × Nat)) (k : Nat) : Nat :=
  match l.find? (fun p => p.1 = k) with
  | some p => p.2
  | none => 0

/-- All positions `j` of character `c` in `b` with `blo ≤ j < bhi`,
in increasing order (models iterating `b2j[a[i]]` within the window). -/
def posList (b : List Char) (c : Char) (blo bhi : Nat) : List Nat :=
  (List.range b.length).filter (fun j => blo ≤ j && j < bhi && b.getD j ' ' = c)

/-- One row of the `find_longest_match` dynamic program: processing index `i`
of `a` against previous row `j2len`, updating the best `(i', j', size)`. -/
def seqFlmRow (b : List Char) (c : Char) (blo bhi : Nat) (i : Nat)
    (j2len : List (Nat × Nat)) (best : Nat × Nat × Nat) :
    List (Nat × Nat) × (Nat × Nat × Nat) :=
  (posList b c blo bhi).foldl
    (fun acc j =>
      let k := (if j = 0 then 0 else alookup0 j2len (j - 1)) + 1
      let newj2len := acc.1 ++ [(j, k)]
      let best' := if acc.2.2.2 < k then (i + 1 - k, j + 1 - k, k) else acc.2
      (newj2len, best'))
    ([], best)

/-- `find_longest_match(alo, ahi, blo, bhi)` for the (junk-free) matcher:
returns `(besti, bestj, bestsize)`. -/
def seqFindLongestMatch (a b : List Char) (alo ahi blo bhi : Nat) :
    Nat × Nat × Nat :=
  let res := (List.range' alo (ahi - alo)).foldl
    (fun (acc : List (Nat × Nat) × (Nat × Nat × Nat)) i =>
      seqFlmRow b (a.getD i ' ') blo bhi i acc.1 acc.2)
    ([], (alo, blo, 0))
  res.2

/-- Recursive block collection of `get_matching_blocks` (fuel-bounded; the
fuel `a.length + b.length + 1` used below always suffices because every
recursive call strictly shrinks the window). -/
def seqMatchBlocks (a b : List Char) : Nat → Nat → Nat → Nat → Nat → List (Nat × Nat × Nat)
  | 0, _, _, _, _ => []
  | fuel + 1, alo, ahi, blo, bhi =>
    let m := seqFindLongestMatch a b alo ahi blo bhi
    if m.2.2 = 0 then []
    else
      seqMatchBlocks a b fuel alo m.1 blo m.2.1
        ++ [m]
        ++ seqMatchBlocks a b fuel (m.1 + m.2.2) ahi (m.2.1 + m.2.2) bhi

/-- `SequenceMatcher(None, a, b).ratio()` as a rational: `2*M/T` where `M`
is the total size of matching blocks and `T` the combined length
(`1` when both inputs are empty, as in `difflib._calculate_ratio`). -/
def seqMatchValue (a b : List Char) : ℚ :=
  let blocks := seqMatchBlocks a b (a.length + b.length + 1) 0 a.length 0 b.length
  let m : Nat := (blocks.map (fun t => t.2.2)).foldl (· + ·) 0
  if a.length + b.length = 0 then 1
  else (2 * (m : ℚ)) / ((a.length : ℚ) + (b.length : ℚ))

/-! ## Geometry (`app/places/canonicalize.py::haversine_km`,
`app/detours/corridor.py`) -/

/-- `math.radians`. -/
def radians (x : ℝ) : ℝ := x * Real.pi / 180

/-- `math.atan2 y x` (two-argument arctangent, Python/C semantics on
non-NaN inputs; signed zeros are not modelled). -/
def atan2 (y x : ℝ) : ℝ :=
  if 0 < x then Real.arctan (y / x)
  else if x < 0 then
    (if 0 ≤ y then Real.arctan (y / x) + Real.pi else Real.arctan (y / x) - Real.pi)
  else if 0 < y then Real.pi / 2
  else if y < 0 then -(Real.pi / 2)
  else 0

/-- `haversine_km(lat1, lng1, lat2, lng2)`: great-circle distance with
Earth radius 6371.0 km. -/
def haversine_km (lat1 lng1 lat2 lng2 : ℝ) : ℝ :=
  let R : ℝ := 6371.0
  let dlat := radians (lat2 - lat1)
  let dlng := radians (lng2 - lng1)
  let a := Real.sin (dlat / 2) ^ 2
    + Real.cos (radians lat1) * Real.cos (radians lat2) * Real.sin (dlng / 2) ^ 2
  R * 2 * atan2 (Real.sqrt a) (Real.sqrt (1 - a))

open Classical in
/-- `point_to_segment_distance_km(px, py, ax, ay, bx, by)`: planar projection
of P onto segment A–B in raw lat/lng space, clamped to the segment, then the
haversine distance from P to the clamped closest point. -/
def point_to_segment_distance_km (px py ax ay bx by' : ℝ) : ℝ :=
  let dx := bx - ax
  let dy := by' - ay
  let seg_len_sq := dx * dx + dy * dy
  if seg_len_sq < 1e-12 then haversine_km px py ax ay
  else
    let t := ((px - ax) * dx + (py - ay) * dy) / seg_len_sq
    let t' := max 0 (min 1 t)
    let closest_lat := ax + t' * dx
    let closest_lng := ay + t' * dy
    haversine_km px py closest_lat closest_lng

/-- `is_within_corridor(...)`: `(within, distance_km)` where
`within ↔ distance ≤ buffer_km`. -/
def is_within_corridor (poi_lat poi_lng origin_lat origin_lng dest_lat dest_lng buffer_km : ℝ) :
    Prop × ℝ :=
  let dist := point_to_segment_distance_km poi_lat poi_lng origin_lat origin_lng dest_lat dest_lng
  (dist ≤ buffer_km, dist)

/-- `estimate_detour_minutes(origin, poi, dest)`: extra straight-line
kilometres floored at 0, converted to minutes at 30 km/h. -/
def estimate_detour_minutes (origin_lat origin_lng poi_lat poi_lng dest_lat dest_lng : ℝ) : ℝ :=
  let direct_km := haversine_km origin_lat origin_lng dest_lat dest_lng
  let via_poi_km := haversine_km origin_lat origin_lng poi_lat poi_lng
    + haversine_km poi_lat poi_lng dest_lat dest_lng
  let extra_km := max 0 (via_poi_km - direct_km)
  let avg_speed_kmh : ℝ := 30.0
  (extra_km / avg_speed_kmh) * 60.0

/-! ## Matching module (`app/places/canonicalize.py`) -/

/-- `CATEGORY_TYPE_MAP` with the `.get(candidate_category, [])` default:
candidate categories mapped to Google-type substrings. -/
def CATEGORY_TYPE_MAP (c : String) : List String :=
  if c = "food" then ["restaurant", "meal_delivery", "meal_takeaway", "food"]
  else if c = "cafe" then ["cafe", "coffee"]
  else if c = "bar" then ["bar", "night_club", "pub"]
  else if c = "dessert" then ["bakery", "ice_cream", "dessert", "cafe"]
  else if c = "viewpoint" then ["tourist_attraction", "park", "point_of_interest", "natural_feature"]
  else if c = "shop" then ["store", "shop", "shopping_mall", "market"]
  else []

/-- `name_similarity(a, b)`: `SequenceMatcher` ratio on lowercased, stripped
strings; `0.0` when either side is empty after cleaning. -/
def name_similarity (a b : String) : ℝ :=
  let a_clean := pyStrip (pyLower a)
  let b_clean := pyStrip (pyLower b)
  if a_clean = "" ∨ b_clean = "" then 0
  else ((seqMatchValue a_clean.toList b_clean.toList : ℚ) : ℝ)

/-- `category_match_score(candidate_category, google_types)`: `1.0` on any
case-insensitive substring hit, `0.5` for an unmapped category
(the "other" neutral score), else `0.0`. -/
def category_match_score (candidate_category : String) (google_types : List String) : ℝ :=
  let expected_types := CATEGORY_TYPE_MAP candidate_category
  if expected_types = [] then 0.5
  else if google_types.any (fun gtype => expected_types.any (fun e => strContains (pyLower gtype) e)) then 1
  else 0

/-- A Places search result (`PlaceCandidate` in `app/places/client.py`). -/
structure PlaceCandidate where
  place_id : String
  name : String
  lat : ℝ
  lng : ℝ
  address : Option String
  types : List String
  rating : Option ℝ
  user_ratings_total : Option ℤ
  price_level : Option ℤ

/-- A location bias dict `{"lat": .., "lng": ..}`. -/
structure LocationBias where
  lat : ℝ
  lng : ℝ

open Classical in
/-- `score_match(candidate_name, candidate_category, place, location_bias)`:
`0.5·name + 0.3·category + 0.2·proximity`.  The source guards the proximity
branch with Python truthiness `location_bias and place.lat and place.lng`,
so a place with latitude or longitude exactly `0.0` falls back to the
neutral `0.5` proximity even when a bias is supplied. -/
def score_match (candidate_name candidate_category : String)
    (place : PlaceCandidate) (location_bias : Option LocationBias) : ℝ :=
  let ns := name_similarity candidate_name place.name
  let cs := category_match_score candidate_category place.types
  let proximity : ℝ :=
    match location_bias with
    | none => 0.5
    | some bias =>
      if place.lat ≠ 0 ∧ place.lng ≠ 0 then
        max 0 (1 - haversine_km bias.lat bias.lng place.lat place.lng / 50)
      else 0.5
  ns * 0.5 + cs * 0.3 + proximity * 0.2

/-! ## Aggregation module (`compute_aggregate` / `compute_score`) -/

/-- The free-form payload of one POI signal (`signal_json`). -/
structure SignalJson where
  vibe_tags : List String
  what_to_order : List String
  warnings : List String
  best_time_windows : List String
  why_special : String
  price_level_hint : Option ℤ
  category : String

/-- A `poi_signals` row. -/
structure SignalRow where
  id : Nat
  poi_id : Nat
  source : String
  social_post_id : Option Nat
  signal_json : SignalJson
  confidence : ℝ
  created_at : ℝ

/-- The aggregate JSON produced by `compute_aggregate`. -/
structure AggJson where
  top_vibe_tags : List String
  top_what_to_order : List String
  warnings : List String
  why_special_snippets : List String
  best_time_windows : List String
  sources_count : List (String × Nat)
  total_mentions : Nat
  deriving DecidableEq

/-- The `{}` default used by the ranker when a POI has no aggregate row. -/
def emptyAggJson : AggJson :=
  { top_vibe_tags := [], top_what_to_order := [], warnings := [],
    why_special_snippets := [], best_time_windows := [], sources_count := [],
    total_mentions := 0 }

/-- Increment key `k` in an insertion-ordered counter
(models `collections.Counter` updates). -/
def bump (l : List (String × Nat)) (k : String) : List (String × Nat) :=
  if l.any (fun p => p.1 = k) then
    l.map (fun p => if p.1 = k then (p.1, p.2 + 1) else p)
  else l ++ [(k, 1)]

/-- Fold a list of keys into a counter. -/
def bumpAll (l : List (String × Nat)) (ks : List String) : List (String × Nat) :=
  ks.foldl bump l

/-- `Counter.most_common(n)`: keys sorted by descending count, ties kept in
insertion order (stable insertion into a descending list). -/
def insertByCount (p : String × Nat) : List (String × Nat) → List (String × Nat)
  | [] => [p]
  | q :: qs => if q.2 ≤ p.2 ∧ q.2 ≠ p.2 then p :: q :: qs else q :: insertByCount p qs

/-- Stable descending sort of a counter by count. -/
def sortByCountDesc : List (String × Nat) → List (String × Nat)
  | [] => []
  | p :: ps => insertByCount p (sortByCountDesc ps)

/-- `[k for k, _ in counter.most_common(n)]`. -/
def mostCommon (n : Nat) (l : List (String × Nat)) : List String :=
  ((sortByCountDesc l).take n).map (fun p => p.1)

/-- Deduplicating accumulation (models the Python `set` of warnings; the
spec leaves set iteration order unspecified, we keep first-seen order). -/
def dedupAppend (acc : List String) (w : String) : List String :=
  if w ∈ acc then acc else acc ++ [w]

/-- `compute_aggregate(signals)`: merge all signals into one aggregate JSON. -/
def compute_aggregate (signals : List SignalRow) : AggJson :=
  let step := fun (acc : List (String × Nat) × List (String × Nat) × List String × List String ×
      List (String × Nat) × List (String × Nat)) (s : SignalRow) =>
    let sj := s.signal_json
    let sources := bump acc.2.2.2.2.2 s.source
    let vibe := bumpAll acc.1 sj.vibe_tags
    let order := bumpAll acc.2.1 sj.what_to_order
    let warn := sj.warnings.foldl dedupAppend acc.2.2.1
    let why := if sj.why_special ≠ "" ∧ sj.why_special ∉ acc.2.2.2.1
      then acc.2.2.2.1 ++ [sj.why_special] else acc.2.2.2.1
    let tw := bumpAll acc.2.2.2.2.1 sj.best_time_windows
    (vibe, order, warn, why, tw, sources)
  let r := signals.foldl step ([], [], [], [], [], [])
  { top_vibe_tags := mostCommon 10 r.1,
    top_what_to_order := mostCommon 10 r.2.1,
    warnings := r.2.2.1,
    why_special_snippets := r.2.2.2.1.take 5,
    best_time_windows := mostCommon 5 r.2.2.2.2.1,
    sources_count := r.2.2.2.2.2,
    total_mentions := signals.length }

/-- `max(s.created_at for s in signals)` (0 on the empty list, which the
caller never reaches). -/
def newestOf : List SignalRow → ℝ
  | [] => 0
  | s :: rest => rest.foldl (fun m x => max m x.created_at) s.created_at

open Classical in
/-- `compute_score(signals, aggregate)` evaluated with `datetime.utcnow()`
equal to `now` (timestamps in seconds; `timedelta.days` is the floor of the
difference in days): `ln(1+mentions)*2 + avg_confidence + recency_bonus`,
`0.0` for no signals.  The `aggregate` argument is unused, as in the source. -/
def compute_score (now : ℝ) (signals : List SignalRow) (aggregate : AggJson) : ℝ :=
  match signals with
  | [] => 0
  | _ :: _ =>
    let mentions : ℕ := signals.length
    let mention_score := Real.log (1 + (mentions : ℝ)) * 2.0
    let avg_confidence := (signals.map (fun s => s.confidence)).sum / (mentions : ℝ)
    let newest := newestOf signals
    let age_days : ℤ := ⌊(now - newest) / 86400⌋
    let recency_bonus := max 0 (1 - (age_days : ℝ) / 365.0)
    mention_score + avg_confidence + recency_bonus

/-! ## Persistent rows (`app/models.py`) and the canonicalization engine
(`app/places/canonicalize.py::canonicalize_post`, `_update_aggregate`)

The per-request database is a record of row lists; fresh primary keys are
drawn from a counter (modelling `uuid4` defaults).  The Places search client
is an oracle `String → Except String (List PlaceCandidate)`; `Except.error`
models a raised exception. -/

/-- A `pois` row. -/
structure PlacePOI where
  id : Nat
  provider : String
  provider_place_id : String
  name : String
  lat : ℝ
  lng : ℝ
  address : Option String
  categories : Option (List String)
  price_level : Option ℤ
  rating : Option ℝ
  user_ratings_total : Option ℤ
  created_at : ℝ
  updated_at : ℝ

/-- A `poi_aggregates` row (keyed by `poi_id` in `DbState.aggregates`). -/
structure AggRow where
  aggregate_json : AggJson
  score : ℝ
  updated_at : ℝ

/-- The mutable store touched by canonicalization. -/
structure DbState where
  pois : List PlacePOI
  signals : List SignalRow
  aggregates : List (Nat × AggRow)
  next_id : Nat

/-- First aggregate row keyed by `pid` (models `db.get(POIAggregate, poi_id)`). -/
def aggLookup (aggs : List (Nat × AggRow)) (pid : Nat) : Option AggRow :=
  match aggs.find? (fun p => p.1 = pid) with
  | some p => some p.2
  | none => none

/-- `_update_aggregate(db, poi_id)` at instant `now`: recompute the aggregate
from the POI's current signals and upsert the `poi_aggregates` row (replace
when present, insert otherwise).  No other table is touched. -/
def updateAggregate (now : ℝ) (pid : Nat) (st : DbState) : DbState :=
  let signals := st.signals.filter (fun s => s.poi_id = pid)
  let aggregate_json := compute_aggregate signals
  let score := compute_score now signals aggregate_json
  match aggLookup st.aggregates pid with
  | some _ =>
    { st with aggregates := st.aggregates.map (fun p =>
        if p.1 = pid then (p.1, { aggregate_json := aggregate_json, score := score, updated_at := now }) else p) }
  | none =>
    { st with aggregates := st.aggregates ++
        [(pid, { aggregate_json := aggregate_json, score := score, updated_at := now })] }

/-- An extracted candidate dict.  Absent string hints are modelled as `""`
(both `None` and `""` are falsy in the source's truthiness checks). -/
structure Candidate where
  place_name : String
  city_hint : String
  landmark_hint : String
  address_hint : String
  category : String
  vibe_tags : List String
  what_to_order : List String
  warnings : List String
  best_time_windows : List String
  why_special : String
  price_level_hint : Option ℤ
  confidence : ℝ

/-- The search query string: `place_name` plus the first non-empty hint among
city, landmark, address (joined with a space). -/
def buildQuery (c : Candidate) : String :=
  if c.city_hint ≠ "" then c.place_name ++ " " ++ c.city_hint
  else if c.landmark_hint ≠ "" then c.place_name ++ " " ++ c.landmark_hint
  else if c.address_hint ≠ "" then c.place_name ++ " " ++ c.address_hint
  else c.place_name

open Classical in
/-- The best-match selection loop: fold with `if s > best_score` starting from
`(None, 0.0)`. -/
def bestMatch (place_name category : String) (results : List PlaceCandidate) :
    Option PlaceCandidate × ℝ :=
  results.foldl
    (fun acc sr =>
      let s := score_match place_name category sr none
      if acc.2 < s then (some sr, s) else acc)
    (none, 0)

/-- A `created_or_linked_pois` entry. -/
structure LinkedEntry where
  poi_id : Nat
  provider_place_id : String
  match_confidence : ℝ
  name : String

/-- An `unmatched_candidates` entry (`best_score` present only for the
`below_threshold` reason). -/
structure UnmatchedEntry where
  candidate : Candidate
  reason : String
  best_score : Option ℝ

/-- `round(x, n)` (to-nearest; the float banker's tie-break is immaterial to
every theorem below, none of which sits at a tie). -/
def roundTo (n : ℕ) (x : ℝ) : ℝ := ((round (x * 10 ^ n) : ℤ) : ℝ) / 10 ^ n

/-- Find the POI by `(google, place_id)` or create one from the search result
(lines 195–216): returns the updated state and the row. -/
def findOrCreatePOI (now : ℝ) (st : DbState) (bp : PlaceCandidate) : DbState × PlacePOI :=
  match st.pois.find? (fun p => p.provider = "google" ∧ p.provider_place_id = bp.place_id) with
  | some p => (st, p)
  | none =>
    let p : PlacePOI :=
      { id := st.next_id, provider := "google", provider_place_id := bp.place_id,
        name := bp.name, lat := bp.lat, lng := bp.lng, address := bp.address,
        categories := some bp.types, price_level := bp.price_level,
        rating := bp.rating, user_ratings_total := bp.user_ratings_total,
        created_at := now, updated_at := now }
    ({ st with pois := st.pois ++ [p], next_id := st.next_id + 1 }, p)

open Classical in
/-- One iteration of the candidate loop of `canonicalize_post` (lines
136–245).  Returns the new state, an optional linked entry, an optional
unmatched entry, and the list of search queries issued (for the
collaborator-invocation claims).  `post_source` is `post.source` when the
post row exists. -/
def processCandidate (search : String → Except String (List PlaceCandidate))
    (post_source : Option String) (social_post_id : Nat)
    (match_threshold now : ℝ) (st : DbState) (c : Candidate) :
    DbState × Option LinkedEntry × Option UnmatchedEntry × List String :=
  if c.place_name = "" then (st, none, none, [])
  else
    let query := buildQuery c
    match search query with
    | Except.error e =>
      (st, none, some { candidate := c, reason := "search_error: " ++ e, best_score := none }, [query])
    | Except.ok search_results =>
      match search_results with
      | [] => (st, none, some { candidate := c, reason := "no_results", best_score := none }, [query])
      | _ :: _ =>
        let best := bestMatch c.place_name c.category search_results
        match best with
        | (none, best_score) =>
          (st, none, some { candidate := c, reason := "below_threshold", best_score := some best_score }, [query])
        | (some best_place, best_score) =>
          if best_score < match_threshold then
            (st, none, some { candidate := c, reason := "below_threshold", best_score := some best_score }, [query])
          else
            let r := findOrCreatePOI now st best_place
            let signal : SignalRow :=
              { id := r.1.next_id, poi_id := r.2.id,
                source := post_source.getD "manual",
                social_post_id := some social_post_id,
                signal_json :=
                  { vibe_tags := c.vibe_tags, what_to_order := c.what_to_order,
                    why_special := c.why_special, warnings := c.warnings,
                    best_time_windows := c.best_time_windows,
                    price_level_hint := c.price_level_hint, category := c.category },
                confidence := c.confidence, created_at := now }
            let st2 : DbState :=
              { r.1 with signals := r.1.signals ++ [signal], next_id := r.1.next_id + 1 }
            let st3 := updateAggregate now r.2.id st2
            (st3,
              some { poi_id := r.2.id, provider_place_id := best_place.place_id,
                     match_confidence := roundTo 3 best_score, name := best_place.name },
              none, [query])

/-- The latest extraction for a post (only its candidate list matters here). -/
structure Extraction where
  candidates : List Candidate

/-- The partitioned result of `canonicalize_post`. -/
structure CanonResult where
  created_or_linked_pois : List LinkedEntry
  unmatched_candidates : List UnmatchedEntry
  error : Option String

/-- `canonicalize_post(db, social_post_id, match_threshold)` at instant `now`:
load the latest extraction (an argument here, `none` when the post has no
extraction), loop over candidates, and return the partitioned result, final
state, and every search query issued. -/
def canonicalize_post (search : String → Except String (List PlaceCandidate))
    (extraction : Option Extraction) (post_source : Option String)
    (social_post_id : Nat) (match_threshold now : ℝ) (st : DbState) :
    CanonResult × DbState × List String :=
  match extraction with
  | none =>
    ({ created_or_linked_pois := [], unmatched_candidates := [], error := some "No extraction found" }, st, [])
  | some ext =>
    let r := ext.candidates.foldl
      (fun (acc : DbState × List LinkedEntry × List UnmatchedEntry × List String) c =>
        let step := processCandidate search post_source social_post_id match_threshold now acc.1 c
        (step.1,
         acc.2.1 ++ step.2.1.toList,
         acc.2.2.1 ++ step.2.2.1.toList,
         acc.2.2.2 ++ step.2.2.2))
      (st, [], [], [])
    ({ created_or_linked_pois := r.2.1, unmatched_candidates := r.2.2.1, error := none }, r.1, r.2.2.2)

/-! ## Detour ranking engine (`app/detours/ranker.py`)

`suggest_detours` consumes: the POI table joined with its optional aggregate
rows (`db`), the outcome of the single `retrieve_hybrid` call (an oracle,
`Except.error` modelling a raised exception), and the place-details
collaborator for the open-hours pass (`getDetails pid = .ok none` models a
`None` details result, `.ok (some o)` a details object with
`is_open_now = o`, `.error` a raised exception). -/

/-- `CATEGORY_FILTER_MAP` of the ranker with the `.get(category_filter, [])`
default.  Note: unlike `CATEGORY_TYPE_MAP`, it has no `viewpoint` or `shop`
entry, so those filters map to the empty keyword list. -/
def CATEGORY_FILTER_MAP (c : String) : List String :=
  if c = "food" then ["restaurant", "food", "meal"]
  else if c = "cafe" then ["cafe", "coffee"]
  else if c = "bar" then ["bar", "pub", "night_club"]
  else if c = "dessert" then ["bakery", "ice_cream", "dessert", "cafe"]
  else []

/-- The category filter of `suggest_detours` (lines 119–128): `true` when the
POI survives.  A POI is dropped only when the filter is not `"any"`, its
keyword list is non-empty, and no category of the POI contains a keyword. -/
def categoryKeep (category_filter : String) (poi_categories : List String) : Bool :=
  if category_filter = "any" then true
  else
    let type_keywords := CATEGORY_FILTER_MAP category_filter
    if type_keywords ≠ [] ∧
        ¬ poi_categories.any (fun cat => type_keywords.any (fun kw => strContains (pyLower cat) kw))
    then false else true

/-- The price filter (lines 131–133): drop only when both a cap and a POI
price level are known and the level exceeds the cap. -/
def priceKeep (price_level_max : Option ℤ) (price_level : Option ℤ) : Bool :=
  match price_level_max, price_level with
  | some m, some p => ¬ (m < p)
  | _, _ => true

/-- The padded bounding box of `_bounding_box` (lines 310–327). -/
structure BBox where
  min_lat : ℝ
  max_lat : ℝ
  min_lng : ℝ
  max_lng : ℝ

/-- `_bounding_box(lat1, lng1, lat2, lng2, buffer_km)`. -/
def boundingBox (lat1 lng1 lat2 lng2 buffer_km : ℝ) : BBox :=
  let lat_buffer := buffer_km / 111.0
  let avg_lat := (lat1 + lat2) / 2
  let lng_buffer := buffer_km / (111.0 * Real.cos (radians avg_lat))
  { min_lat := min lat1 lat2 - lat_buffer, max_lat := max lat1 lat2 + lat_buffer,
    min_lng := min lng1 lng2 - lng_buffer, max_lng := max lng1 lng2 + lng_buffer }

open Classical in
/-- The bounding-box WHERE clause of the POI query (lines 90–99). -/
def bboxRows (bbox : BBox) : List (PlacePOI × Option AggRow) → List (PlacePOI × Option AggRow)
  | [] => []
  | r :: rest =>
    if bbox.min_lat ≤ r.1.lat ∧ r.1.lat ≤ bbox.max_lat ∧
        bbox.min_lng ≤ r.1.lng ∧ r.1.lng ≤ bbox.max_lng
    then r :: bboxRows bbox rest
    else bboxRows bbox rest

/-- One in-memory ranking candidate (the per-POI dict of the source, with
`rank_score` and `is_open` keys present from the start instead of being
added by later passes). -/
structure RankCand where
  poi : PlacePOI
  aggregate : Option AggRow
  corridor_dist : ℝ
  detour_mins : ℝ
  social_score : ℝ
  agg_json : AggJson
  rank_score : ℝ
  is_open : Option Bool

open Classical in
/-- The candidate-collection loop (lines 105–154): corridor check, category
filter, price filter, detour-time filter, in that order. -/
def collectCandidates (origin_lat origin_lng dest_lat dest_lng buffer_km : ℝ)
    (category_filter : String) (price_level_max : Option ℤ)
    (max_detour_minutes : ℝ) :
    List (PlacePOI × Option AggRow) → List RankCand
  | [] => []
  | (poi, aggregate) :: rest =>
    let recurse := collectCandidates origin_lat origin_lng dest_lat dest_lng buffer_km
      category_filter price_level_max max_detour_minutes rest
    let wd := is_within_corridor poi.lat poi.lng origin_lat origin_lng dest_lat dest_lng buffer_km
    if ¬ wd.1 then recurse
    else if ¬ categoryKeep category_filter (poi.categories.getD []) then recurse
    else if ¬ priceKeep price_level_max poi.price_level then recurse
    else
      let detour_mins := estimate_detour_minutes origin_lat origin_lng poi.lat poi.lng dest_lat dest_lng
      if max_detour_minutes < detour_mins then recurse
      else
        { poi := poi, aggregate := aggregate, corridor_dist := wd.2,
          detour_mins := detour_mins,
          social_score := match aggregate with | some a => a.score | none => 0,
          agg_json := match aggregate with | some a => a.aggregate_json | none => emptyAggJson,
          rank_score := 0, is_open := none } :: recurse

/-- The base rank score (lines 172–174):
`social_score * 0.6 + max(0, 1 − corridor_dist/buffer) * 0.4`. -/
def rankBase (buffer_km : ℝ) (c : RankCand) : RankCand :=
  let proximity_score := max 0 (1 - c.corridor_dist / buffer_km)
  { c with rank_score := c.social_score * 0.6 + proximity_score * 0.4 }

/-- Memory types (`app/models.py::MemoryType`). -/
inductive MemType
  | preference
  | profile
  | constraint
  | goal
  | episode
  deriving DecidableEq

/-- A retrieved memory (`text`, `type`). -/
structure MemoryRow where
  text : String
  type : MemType

/-- Words of a lowercased memory text longer than 3 characters. -/
def longWords (s : String) : List String :=
  (pySplit s).filter (fun w => 3 < w.length)

open Classical in
/-- `_apply_memory_reranking` (lines 254–307) given the outcome of the single
`retrieve_hybrid` call: on a retrieval failure or an empty memory list the
candidates are left untouched; otherwise each candidate gains `+0.3` once per
preference memory with a long word occurring in its tag/name blob and loses
`0.5` once per constraint memory with a long word in the blob or in its
warnings text. -/
def applyMemoryReranking (retrieved : Except Unit (List MemoryRow))
    (cands : List RankCand) : List RankCand :=
  match retrieved with
  | Except.error _ => cands
  | Except.ok memories =>
    match memories with
    | [] => cands
    | _ :: _ =>
      let positive_signals := (memories.filter (fun m => m.type = MemType.preference)).map
        (fun m => pyLower m.text)
      let negative_signals := (memories.filter (fun m => m.type = MemType.constraint)).map
        (fun m => pyLower m.text)
      cands.map (fun c =>
        let tags := pyLower (joinWith " "
          (c.agg_json.top_vibe_tags ++ c.agg_json.top_what_to_order))
        let warnings_text := pyLower (joinWith " " c.agg_json.warnings)
        let name_lower := pyLower c.poi.name
        let combined := tags ++ " " ++ name_lower
        let r1 := positive_signals.foldl
          (fun r pref =>
            if (longWords pref).any (fun w => strContains combined w) then r + 0.3 else r)
          c.rank_score
        let r2 := negative_signals.foldl
          (fun r con =>
            if (longWords con).any (fun w => strContains combined w || strContains warnings_text w)
            then r - 0.5 else r)
          r1
        { c with rank_score := r2 })

open Classical in
/-- Stable insertion into a rank-descending list: `c` goes before the first
element whose score does not exceed its own, so earlier input order is kept
among equal scores. -/
def insertByRank (c : RankCand) : List RankCand → List RankCand
  | [] => [c]
  | x :: xs => if x.rank_score ≤ c.rank_score then c :: x :: xs else x :: insertByRank c xs

/-- `candidates.sort(key=rank_score, reverse=True)`: Python's sort is stable,
and a stable descending sort is unique, so stable insertion sort is an exact
model. -/
def sortByRankDesc : List RankCand → List RankCand
  | [] => []
  | c :: cs => insertByRank c (sortByRankDesc cs)

open Classical in
/-- The open-hours pass (lines 187–209): walk the shortlist in rank order,
keeping open and unknown-hours candidates (details failures fail open),
stopping once `max_results` have been collected. -/
def collectOpen (getDetails : String → Except Unit (Option (Option Bool)))
    (max_results : Nat) (acc : List RankCand) : List RankCand → List RankCand
  | [] => acc
  | c :: rest =>
    let acc' :=
      match getDetails c.poi.provider_place_id with
      | Except.error _ => acc ++ [c]
      | Except.ok none => acc ++ [{ c with is_open := none }]
      | Except.ok (some none) => acc ++ [{ c with is_open := none }]
      | Except.ok (some (some true)) => acc ++ [{ c with is_open := some true }]
      | Except.ok (some (some false)) => acc
    if max_results ≤ acc'.length then acc'
    else collectOpen getDetails max_results acc' rest

/-- `_infer_category`'s per-type bucket chain (lines 333–345): the first
keyword bucket, in the order food, cafe, bar, dessert, viewpoint, shop,
that the (lowercased) type matches. -/
def bucketOf (t : String) : Option String :=
  if ["restaurant", "food", "meal"].any (fun k => strContains t k) then some "food"
  else if ["cafe", "coffee"].any (fun k => strContains t k) then some "cafe"
  else if ["bar", "pub", "night_club"].any (fun k => strContains t k) then some "bar"
  else if ["bakery", "ice_cream", "dessert"].any (fun k => strContains t k) then some "dessert"
  else if ["tourist_attraction", "park", "viewpoint"].any (fun k => strContains t k) then some "viewpoint"
  else if ["store", "shop", "market"].any (fun k => strContains t k) then some "shop"
  else none

/-- The loop of `_infer_category` over the lowercased types. -/
def inferCategoryGo : List String → String
  | [] => "other"
  | t :: rest =>
    match bucketOf t with
    | some c => c
    | none => inferCategoryGo rest

/-- `_infer_category(types)`: scan the provider types in list order; the
first type matching any bucket decides the category; `"other"` otherwise. -/
def inferCategory (types : List String) : String :=
  inferCategoryGo (types.map pyLower)

/-- `_first_snippet(snippets)`: the first snippet that is non-empty after
stripping, stripped; `""` otherwise. -/
def firstSnippet : List String → String
  | [] => ""
  | s :: rest => if pyStrip s ≠ "" then pyStrip s else firstSnippet rest

/-- A returned `DetourSuggestion`. -/
structure DetourSuggestion where
  poi_id : Nat
  name : String
  lat : ℝ
  lng : ℝ
  address : Option String
  category : String
  adds_minutes : ℝ
  corridor_distance_km : ℝ
  social_score : ℝ
  why_special : String
  what_to_order : List String
  warnings : List String
  vibe_tags : List String
  confidence : ℝ
  sources_count : List (String × Nat)
  is_open : Option Bool

/-- The response-assembly step (lines 220–237) for one candidate. -/
def buildSuggestion (c : RankCand) : DetourSuggestion :=
  { poi_id := c.poi.id, name := c.poi.name, lat := c.poi.lat, lng := c.poi.lng,
    address := c.poi.address,
    category := inferCategory (c.poi.categories.getD []),
    adds_minutes := roundTo 1 c.detour_mins,
    corridor_distance_km := roundTo 2 c.corridor_dist,
    social_score := roundTo 2 c.social_score,
    why_special := firstSnippet c.agg_json.why_special_snippets,
    what_to_order := c.agg_json.top_what_to_order.take 3,
    warnings := c.agg_json.warnings,
    vibe_tags := c.agg_json.top_vibe_tags.take 5,
    confidence := min 1 (c.rank_score / 5),
    sources_count := c.agg_json.sources_count,
    is_open := c.is_open }

/-- `settings.corridor_buffer_km` (default configuration value). -/
def corridor_buffer_km : ℝ := 2.0

/-- `suggest_detours(...)`: the full request-scoped pipeline.  Every empty
outcome returns the bare empty list — the `reason_if_empty` string of the
source goes only to the logger and is not part of the return value. -/
def suggest_detours (db : List (PlacePOI × Option AggRow))
    (retrieveMemories : Except Unit (List MemoryRow))
    (getDetails : String → Except Unit (Option (Option Bool)))
    (user_id : Option Nat)
    (origin_lat origin_lng dest_lat dest_lng max_detour_minutes : ℝ)
    (category_filter : String) (price_level_max : Option ℤ)
    (must_be_open : Bool) (max_results : Nat) : List DetourSuggestion :=
  let buffer_km := corridor_buffer_km
  let bbox := boundingBox origin_lat origin_lng dest_lat dest_lng buffer_km
  let rows := bboxRows bbox db
  let candidates := collectCandidates origin_lat origin_lng dest_lat dest_lng buffer_km
    category_filter price_level_max max_detour_minutes rows
  match candidates with
  | [] => []
  | _ :: _ =>
    let ranked := candidates.map (rankBase buffer_km)
    let reranked := if user_id.isSome then applyMemoryReranking retrieveMemories ranked else ranked
    let sorted := sortByRankDesc reranked
    let top_k0 := sorted.take (max_results * 2)
    let top_k := if must_be_open then collectOpen getDetails max_results [] top_k0 else top_k0
    (top_k.take max_results).map buildSuggestion

/-! ## HTTP response assembly (`app/detours/routes.py`,
`app/detours/schemas.py::DetourSuggestResponse`) -/

/-- The `insert_stop` dict added per suggestion by the route. -/
structure InsertStop where
  poi_id : Nat
  lat : ℝ
  lng : ℝ

/-- A `DetourSuggestionResponse` item. -/
structure DetourSuggestionResp where
  suggestion : DetourSuggestion
  insert_stop : InsertStop

/-- The per-suggestion response mapping of the route (lines 54–78). -/
def toResponseItem (s : DetourSuggestion) : DetourSuggestionResp :=
  { suggestion := s, insert_stop := { poi_id := s.poi_id, lat := s.lat, lng := s.lng } }

/-- The constant `note` default of `DetourSuggestResponse`. -/
def detourNote : String :=
  "Detour times are straight-line estimates. Actual driving time may vary."

/-- `DetourSuggestResponse`: the full body returned to the caller.  Its only
string field is the constant `note`; no reason accompanies an empty
`suggestions` list. -/
structure DetourSuggestResponse where
  suggestions : List DetourSuggestionResp
  corridor_buffer_km : ℝ
  note : String

/-- The `/v1/detours/suggest` handler body: call `suggest_detours` with
`max_results = 5` and wrap the result. -/
def suggestEndpoint (db : List (PlacePOI × Option AggRow))
    (retrieveMemories : Except Unit (List MemoryRow))
    (getDetails : String → Except Unit (Option (Option Bool)))
    (user_id : Option Nat)
    (origin_lat origin_lng dest_lat dest_lng max_detour_minutes : ℝ)
    (category_filter : String) (price_level_max : Option ℤ)
    (must_be_open : Bool) : DetourSuggestResponse :=
  { suggestions := (suggest_detours db retrieveMemories getDetails user_id
      origin_lat origin_lng dest_lat dest_lng max_detour_minutes
      category_filter price_level_max must_be_open 5).map toResponseItem,
    corridor_buffer_km := corridor_buffer_km,
    note := detourNote }

/-! ## Geometry evaluation lemmas -/

/-- `atan2 0 1 = 0`. -/
theorem atan2_zero_one : atan2 0 1 = 0 := by
  unfold atan2
  rw [if_pos one_pos]
  simp [Real.arctan_zero]

/-- `atan2 1 0 = π/2`. -/
theorem atan2_one_zero : atan2 1 0 = Real.pi / 2 := by
  unfold atan2
  norm_num

/-- `atan2 √(1/2) √(1/2) = π/4`. -/
theorem atan2_sqrt_half :
    atan2 (Real.sqrt (1 / 2)) (Real.sqrt (1 / 2)) = Real.pi / 4 := by
  have hpos : 0 < Real.sqrt (1 / 2) := Real.sqrt_pos.mpr (by norm_num)
  unfold atan2
  rw [if_pos hpos, div_self (ne_of_gt hpos), Real.arctan_one]

/-- For `0 ≤ θ < π/2`, `atan2 √(sin²θ) √(1 − sin²θ) = θ`. -/
theorem atan2_sqrt_sin_sq (θ : ℝ) (h0 : 0 ≤ θ) (h1 : θ < Real.pi / 2) :
    atan2 (Real.sqrt (Real.sin θ ^ 2)) (Real.sqrt (1 - Real.sin θ ^ 2)) = θ := by
  have hπ := Real.pi_pos
  have hcos : 0 < Real.cos θ :=
    Real.cos_pos_of_mem_Ioo ⟨by linarith, h1⟩
  have hsin : 0 ≤ Real.sin θ :=
    Real.sin_nonneg_of_nonneg_of_le_pi h0 (by linarith)
  have h2 : 1 - Real.sin θ ^ 2 = Real.cos θ ^ 2 := (Real.cos_sq' θ).symm
  rw [h2, Real.sqrt_sq hcos.le, Real.sqrt_sq hsin]
  unfold atan2
  rw [if_pos hcos, ← Real.tan_eq_sin_div_cos, Real.arctan_tan (by linarith) h1]

/-- `haversine_km` of a point with itself is `0`. -/
theorem haversine_self (lat lng : ℝ) : haversine_km lat lng lat lng = 0 := by
  simp [haversine_km, radians, atan2_zero_one]

/-- Squared sine is insensitive to the sign under the half-angle. -/
theorem sin_sq_half_abs (x : ℝ) :
    Real.sin (|x| / 2) ^ 2 = Real.sin (x / 2) ^ 2 := by
  rcases abs_cases x with ⟨h, _⟩ | ⟨h, _⟩ <;> rw [h]
  rw [neg_div, Real.sin_neg, neg_sq]

/-- Two points on one meridian (equal longitudes): the haversine distance is
`6371·|Δlat in radians|` whenever that angle is below `π` (true for all
latitude inputs in range). -/
theorem haversine_meridian (lat1 lat2 lng : ℝ)
    (h1 : |radians (lat2 - lat1)| / 2 < Real.pi / 2) :
    haversine_km lat1 lng lat2 lng = 6371 * |radians (lat2 - lat1)| := by
  have h0 : (0 : ℝ) ≤ |radians (lat2 - lat1)| / 2 := by positivity
  have hz : radians (lng - lng) = 0 := by simp [radians]
  have key := atan2_sqrt_sin_sq (|radians (lat2 - lat1)| / 2) h0 h1
  rw [sin_sq_half_abs] at key
  simp only [haversine_km, hz]
  rw [show radians (lat2 - lat1) / 2 = radians (lat2 - lat1) / 2 from rfl]
  simp only [zero_div, Real.sin_zero, ne_eq, OfNat.ofNat_ne_zero,
    not_false_eq_true, zero_pow, mul_zero, add_zero]
  rw [key]
  ring

/-- `sin²(π/4) = 1/2`. -/
theorem sin_sq_pi_div_four : Real.sin (Real.pi / 4) ^ 2 = 1 / 2 := by
  rw [Real.sin_pi_div_four]
  rw [div_pow, Real.sq_sqrt (by norm_num : (0:ℝ) ≤ 2)]
  norm_num

/-- The half-angle collapse used on quarter-circle legs:
`sin²(x/2) + cos x · (1/2) = 1/2`. -/
theorem sin_sq_half_add (x : ℝ) :
    Real.sin (x / 2) ^ 2 + Real.cos x * (1 / 2) = 1 / 2 := by
  have h := Real.sin_sq_eq_half_sub (x / 2)
  rw [show 2 * (x / 2) = x by ring] at h
  rw [h]
  ring

/-- From the equator origin `(0,0)` to any point at longitude 90, the
haversine distance is a quarter of the great circle: `6371·π/2`. -/
theorem haversine_zero_to_quarter (t : ℝ) :
    haversine_km 0 0 t 90 = 6371 * (Real.pi / 2) := by
  have h90 : radians (90 - 0) = Real.pi / 2 := by unfold radians; ring
  have hlat : radians (t - 0) = radians t := by norm_num
  have hA : Real.sin (radians t / 2) ^ 2
      + Real.cos (radians 0) * Real.cos (radians t) * Real.sin (Real.pi / 2 / 2) ^ 2
      = 1 / 2 := by
    have : radians 0 = 0 := by simp [radians]
    rw [this, Real.cos_zero, one_mul,
      show Real.pi / 2 / 2 = Real.pi / 4 by ring, sin_sq_pi_div_four]
    exact sin_sq_half_add (radians t)
  simp only [haversine_km, hlat, h90, hA]
  rw [show (1 : ℝ) - 1 / 2 = 1 / 2 by norm_num, atan2_sqrt_half]
  ring

/-- From any point at longitude 90 to the antipode `(0,180)` of the origin,
the haversine distance is likewise `6371·π/2`. -/
theorem haversine_quarter_to_antipode (t : ℝ) :
    haversine_km t 90 0 180 = 6371 * (Real.pi / 2) := by
  have h90 : radians (180 - 90) = Real.pi / 2 := by unfold radians; ring
  have hlat : radians (0 - t) = -(radians t) := by unfold radians; ring
  have hA : Real.sin (-(radians t) / 2) ^ 2
      + Real.cos (radians t) * Real.cos (radians 0) * Real.sin (Real.pi / 2 / 2) ^ 2
      = 1 / 2 := by
    have h0 : radians 0 = 0 := by simp [radians]
    rw [h0, Real.cos_zero, mul_one, neg_div, Real.sin_neg, neg_sq,
      show Real.pi / 2 / 2 = Real.pi / 4 by ring, sin_sq_pi_div_four]
    exact sin_sq_half_add (radians t)
  simp only [haversine_km, hlat, h90, hA]
  rw [show (1 : ℝ) - 1 / 2 = 1 / 2 by norm_num, atan2_sqrt_half]
  ring

/-- The equator origin to its antipode: half the great circle, `6371·π`. -/
theorem haversine_antipodal : haversine_km 0 0 0 180 = 6371 * Real.pi := by
  have h180 : radians (180 - 0) = Real.pi := by unfold radians; ring
  have hA : Real.sin (radians (0 - 0) / 2) ^ 2
      + Real.cos (radians 0) * Real.cos (radians 0) * Real.sin (Real.pi / 2) ^ 2
      = 1 := by
    simp [radians, Real.sin_pi_div_two]
  simp only [haversine_km, h180, hA]
  rw [show (1 : ℝ) - 1 = 0 by norm_num, Real.sqrt_zero, Real.sqrt_one, atan2_one_zero]
  ring

/-- The corridor distance of a point at longitude 90 to the lat/lng-space
segment from `(0,0)` to `(0,180)` is the meridian distance to `(0, 90)`. -/
theorem p2s_meridian_ex (p : ℝ) (hp : |radians (0 - p)| / 2 < Real.pi / 2) :
    point_to_segment_distance_km p 90 0 0 0 180 = 6371 * |radians (0 - p)| := by
  unfold point_to_segment_distance_km
  rw [if_neg (by norm_num)]
  have ht : ((p - 0) * (0 - 0) + (90 - 0) * (180 - 0)) / ((0 - 0) * (0 - 0) + (180 - 0) * (180 - 0))
      = (1 : ℝ) / 2 := by norm_num
  simp only [ht, show (0 : ℝ) ⊔ (1 : ℝ) ⊓ ((1 : ℝ) / 2) = 1 / 2 by norm_num,
    show (0 : ℝ) + 1 / 2 * ((0 : ℝ) - 0) = 0 by norm_num,
    show (0 : ℝ) + 1 / 2 * ((180 : ℝ) - 0) = 90 by norm_num]
  exact haversine_meridian p 0 90 hp

/-- Routing through any point at longitude 90 between the equator origin
`(0,0)` and its antipode `(0,180)` adds exactly zero estimated minutes. -/
theorem estimate_detour_via_quarter (t : ℝ) :
    estimate_detour_minutes 0 0 t 90 0 180 = 0 := by
  simp only [estimate_detour_minutes, haversine_antipodal, haversine_zero_to_quarter,
    haversine_quarter_to_antipode]
  rw [show 6371 * (Real.pi / 2) + 6371 * (Real.pi / 2) - 6371 * Real.pi = 0 by ring]
  simp

/-- C9 (amended): `estimate_detour_minutes` is always nonnegative and equals
`max(0, (dist(origin→poi) + dist(poi→dest)) − dist(origin→dest)) / 30 · 60`
over haversine distances.  (The strict-increase part of the claim is false;
see the counterexample.) -/
theorem c9_estimate_detour_minutes_formula :
    ∀ olat olng plat plng dlat dlng : ℝ,
      0 ≤ estimate_detour_minutes olat olng plat plng dlat dlng ∧
      estimate_detour_minutes olat olng plat plng dlat dlng =
        max 0 ((haversine_km olat olng plat plng + haversine_km plat plng dlat dlng)
          - haversine_km olat olng dlat dlng) / 30 * 60 := by
  intro olat olng plat plng dlat dlng
  constructor
  · unfold estimate_detour_minutes
    have h := le_max_left (0 : ℝ)
      (haversine_km olat olng plat plng + haversine_km plat plng dlat dlng
        - haversine_km olat olng dlat dlng)
    positivity
  · unfold estimate_detour_minutes
    ring

/-- C9 (counterexample to strict perpendicular monotonicity): for the route
from `(0,0)` to `(0,180)`, the POI `(20,90)` is strictly farther from the
segment (by the code's own corridor distance) than `(10,90)`, yet both give
an estimated detour of exactly 0 minutes. -/
theorem c9_counterexample :
    point_to_segment_distance_km 10 90 0 0 0 180 <
      point_to_segment_distance_km 20 90 0 0 0 180 ∧
    estimate_detour_minutes 0 0 10 90 0 180 = 0 ∧
    estimate_detour_minutes 0 0 20 90 0 180 = 0 := by
  have hπ := Real.pi_pos
  have hπ4 := Real.pi_lt_four
  have h10 : |radians (0 - 10 : ℝ)| = Real.pi / 18 := by
    rw [show radians (0 - 10 : ℝ) = -(Real.pi / 18) by unfold radians; ring]
    rw [abs_neg, abs_of_pos (by positivity)]
  have h20 : |radians (0 - 20 : ℝ)| = Real.pi / 9 := by
    rw [show radians (0 - 20 : ℝ) = -(Real.pi / 9) by unfold radians; ring]
    rw [abs_neg, abs_of_pos (by positivity)]
  refine ⟨?_, estimate_detour_via_quarter 10, estimate_detour_via_quarter 20⟩
  rw [p2s_meridian_ex 10 (by rw [h10]; nlinarith),
    p2s_meridian_ex 20 (by rw [h20]; nlinarith)]
  rw [h10, h20]
  nlinarith

/-! ## Claim C2: the proximity component of `score_match` -/

/-- The bias branch of `score_match`, available when the place's coordinates
pass the source's float-truthiness guard (both nonzero). -/
theorem score_match_some_eq (name cat : String) (place : PlaceCandidate)
    (bias : LocationBias) (h1 : place.lat ≠ 0) (h2 : place.lng ≠ 0) :
    score_match name cat place (some bias) =
      name_similarity name place.name * 0.5 + category_match_score cat place.types * 0.3 +
        max 0 (1 - haversine_km bias.lat bias.lng place.lat place.lng / 50) * 0.2 := by
  simp only [score_match]
  rw [if_pos ⟨h1, h2⟩]

/-- The no-bias branch of `score_match`: neutral 0.5 proximity. -/
theorem score_match_none_eq (name cat : String) (place : PlaceCandidate) :
    score_match name cat place none =
      name_similarity name place.name * 0.5 + category_match_score cat place.types * 0.3 +
        0.5 * 0.2 := rfl

/-- C2 (amended): with a `location_bias` and place coordinates that pass the
source's truthiness guard (latitude and longitude both nonzero), the
proximity component of `score_match` is `max(0, 1 − haversine_km/50)` — full
credit only at distance 0, fading linearly to zero at 50 km; with no
`location_bias` the proximity component is the neutral 0.5. -/
theorem c2_score_match_proximity :
    ∀ (name cat : String) (place : PlaceCandidate) (bias : LocationBias),
      (place.lat ≠ 0 → place.lng ≠ 0 →
        score_match name cat place (some bias) =
          name_similarity name place.name * 0.5 + category_match_score cat place.types * 0.3 +
            max 0 (1 - haversine_km bias.lat bias.lng place.lat place.lng / 50) * 0.2) ∧
      score_match name cat place none =
        name_similarity name place.name * 0.5 + category_match_score cat place.types * 0.3 +
          0.5 * 0.2 := by
  intro name cat place bias
  exact ⟨fun h1 h2 => score_match_some_eq name cat place bias h1 h2,
    score_match_none_eq name cat place⟩

/-- The concrete search result used by the C2 theorems: 0.01° of latitude
(about 1.1 km) away from the bias point `(10, 5)`. -/
def c2Place : PlaceCandidate :=
  { place_id := "p1", name := "Fuunji", lat := 10.01, lng := 5, address := none,
    types := ["restaurant"], rating := none, user_ratings_total := none,
    price_level := none }

/-- C2 (witness): the amended claim evaluated at the concrete place. -/
theorem c2_score_match_proximity_witness :
    score_match "Fuunji" "food" c2Place (some ⟨10, 5⟩) =
      name_similarity "Fuunji" c2Place.name * 0.5 +
        category_match_score "food" c2Place.types * 0.3 +
        max 0 (1 - haversine_km 10 5 10.01 5 / 50) * 0.2 := by
  have h := (c2_score_match_proximity "Fuunji" "food" c2Place ⟨10, 5⟩).1
    (by norm_num [c2Place]) (by norm_num [c2Place])
  simpa [c2Place] using h

/-- The distance from the bias `(10, 5)` to the C2 place in closed form. -/
theorem c2_distance_eq : haversine_km 10 5 10.01 5 = 6371 * (Real.pi / 18000) := by
  have hπ := Real.pi_pos
  have hrad : radians (10.01 - 10 : ℝ) = Real.pi / 18000 := by
    unfold radians
    rw [show (10.01 : ℝ) - 10 = 1 / 100 by norm_num]
    ring
  have habs : |radians (10.01 - 10 : ℝ)| = Real.pi / 18000 := by
    rw [hrad, abs_of_pos (by positivity)]
  have h := haversine_meridian 10 10.01 5 (by rw [habs]; nlinarith)
  rw [h, habs]

/-- C2 (counterexample): the place `(10.01, 5)` lies within 5 km of the bias
`(10, 5)`, yet `score_match` does not grant it full proximity credit — the
claim's "full credit (1.0) for every place within 5 km" is false. -/
theorem c2_counterexample :
    haversine_km 10 5 10.01 5 ≤ 5 ∧
    score_match "Fuunji" "food" c2Place (some ⟨10, 5⟩) ≠
      name_similarity "Fuunji" c2Place.name * 0.5 +
        category_match_score "food" c2Place.types * 0.3 + 1 * 0.2 := by
  have hπ := Real.pi_pos
  have hπ4 := Real.pi_lt_four
  constructor
  · rw [c2_distance_eq]
    nlinarith
  · intro h
    rw [score_match_some_eq "Fuunji" "food" c2Place ⟨10, 5⟩
      (by norm_num [c2Place]) (by norm_num [c2Place])] at h
    simp only [c2Place] at h
    have hm : max 0 (1 - haversine_km 10 5 10.01 5 / 50) = 1 := by linarith
    rw [c2_distance_eq] at hm
    have hlt : max (0 : ℝ) (1 - 6371 * (Real.pi / 18000) / 50) < 1 :=
      max_lt one_pos (by nlinarith)
    linarith

/-! ## Claim C3: the category filter of `suggest_detours` -/

/-- Modelled from the claim (C3): keep a POI exactly when some provider type
has a substring match against the filter's §4.2-style keyword set (which
includes `viewpoint` and `shop`); a POI with no categories is excluded for
every non-`"any"` filter. -/
def categoryKeepSpec (category_filter : String) (poi_categories : List String) : Bool :=
  if category_filter = "any" then true
  else poi_categories.any (fun cat =>
    (CATEGORY_TYPE_MAP category_filter).any (fun kw => strContains (pyLower cat) kw))

/-- Every candidate surviving the collection loop passed the category
filter. -/
theorem collectCandidates_categoryKeep
    (olat olng dlat dlng buffer : ℝ) (cf : String) (pmax : Option ℤ) (mdm : ℝ) :
    ∀ rows c, c ∈ collectCandidates olat olng dlat dlng buffer cf pmax mdm rows →
      categoryKeep cf (c.poi.categories.getD []) = true := by
  intro rows
  induction rows with
  | nil => intro c hc; simp [collectCandidates] at hc
  | cons r rest ih =>
    intro c hc
    obtain ⟨poi, aggregate⟩ := r
    simp only [collectCandidates] at hc
    split_ifs at hc with h1 h2 h3 h4
    all_goals try exact ih c hc
    all_goals
      rcases List.mem_cons.mp hc with h | h
      · rw [h]
        simpa using h2
      · exact ih c h

/-- When the filter is not `"any"` and its keyword list is non-empty, the
category filter is exactly the keyword-substring test. -/
theorem categoryKeep_eq_any (f : String) (hf : f ≠ "any")
    (hk : CATEGORY_FILTER_MAP f ≠ []) (cats : List String) :
    categoryKeep f cats =
      cats.any (fun cat => (CATEGORY_FILTER_MAP f).any (fun kw => strContains (pyLower cat) kw)) := by
  unfold categoryKeep
  rw [if_neg hf]
  by_cases h : cats.any (fun cat =>
      (CATEGORY_FILTER_MAP f).any (fun kw => strContains (pyLower cat) kw)) = true
  · rw [if_neg (by simp [h]), h]
  · rw [if_pos ⟨hk, h⟩]
    simp only [Bool.not_eq_true] at h
    exact h.symm

/-- C3 (amended): for the four mapped filters food/cafe/bar/dessert the
category filter keeps exactly the POIs with a keyword substring match (so a
POI with no categories is excluded); but `viewpoint` and `shop` are absent
from `CATEGORY_FILTER_MAP`, their keyword list defaults to empty, and every
POI — including one with no categories — survives those filters.  Every
candidate surviving the collection loop passed this filter. -/
theorem c3_category_filter :
    (∀ cats : List String,
      (∀ f, f ∈ ["food", "cafe", "bar", "dessert"] →
        categoryKeep f cats =
          cats.any (fun cat =>
            (CATEGORY_FILTER_MAP f).any (fun kw => strContains (pyLower cat) kw))) ∧
      categoryKeep "viewpoint" cats = true ∧
      categoryKeep "shop" cats = true ∧
      categoryKeep "any" cats = true) ∧
    (∀ f, f ∈ ["food", "cafe", "bar", "dessert"] → categoryKeep f [] = false) ∧
    (∀ (olat olng dlat dlng buffer : ℝ) (cf : String) (pmax : Option ℤ) (mdm : ℝ) rows c,
      c ∈ collectCandidates olat olng dlat dlng buffer cf pmax mdm rows →
      categoryKeep cf (c.poi.categories.getD []) = true) := by
  refine ⟨?_, ?_, ?_⟩
  · intro cats
    refine ⟨?_, ?_, ?_, ?_⟩
    · intro f hf
      fin_cases hf <;>
        exact categoryKeep_eq_any _ (by decide) (by decide) cats
    · simp [categoryKeep, CATEGORY_FILTER_MAP]
    · simp [categoryKeep, CATEGORY_FILTER_MAP]
    · simp [categoryKeep]
  · intro f hf
    fin_cases hf <;>
      rw [categoryKeep_eq_any _ (by decide) (by decide) []] <;> rfl
  · intro olat olng dlat dlng buffer cf pmax mdm rows c hc
    exact collectCandidates_categoryKeep olat olng dlat dlng buffer cf pmax mdm rows c hc

/-- C3 (witness): concrete instances of the amended claim. -/
theorem c3_category_filter_witness :
    categoryKeep "food" ["italian restaurant"] =
      (["italian restaurant"] : List String).any (fun cat =>
        (CATEGORY_FILTER_MAP "food").any (fun kw => strContains (pyLower cat) kw)) ∧
    categoryKeep "viewpoint" ["beach"] = true ∧
    categoryKeep "food" [] = false :=
  ⟨(c3_category_filter.1 ["italian restaurant"]).1 "food" (by decide),
   (c3_category_filter.1 ["beach"]).2.1,
   c3_category_filter.2.1 "food" (by decide)⟩

/-- C3 (counterexample): under the `"viewpoint"` filter the code keeps a POI
whose types match no viewpoint keyword, and even a POI with an empty
category list, while the claimed behaviour excludes both. -/
theorem c3_counterexample :
    categoryKeep "viewpoint" ["beach"] = true ∧
    categoryKeepSpec "viewpoint" ["beach"] = false ∧
    categoryKeep "viewpoint" [] = true ∧
    categoryKeepSpec "viewpoint" [] = false := by
  refine ⟨?_, ?_, ?_, ?_⟩ <;> decide

/-! ## Claim C5: `_infer_category` priority -/

/-- Modelled from the claim (C5): the displayed category would be the first
matching bucket in the fixed priority order food, cafe, bar, dessert,
viewpoint, shop — an earlier bucket winning regardless of where its matching
type sits in the list. -/
def inferCategoryBucketFirst (types : List String) : String :=
  let tl := types.map pyLower
  if tl.any (fun t => ["restaurant", "food", "meal"].any (fun k => strContains t k)) then "food"
  else if tl.any (fun t => ["cafe", "coffee"].any (fun k => strContains t k)) then "cafe"
  else if tl.any (fun t => ["bar", "pub", "night_club"].any (fun k => strContains t k)) then "bar"
  else if tl.any (fun t => ["bakery", "ice_cream", "dessert"].any (fun k => strContains t k)) then "dessert"
  else if tl.any (fun t => ["tourist_attraction", "park", "viewpoint"].any (fun k => strContains t k)) then "viewpoint"
  else if tl.any (fun t => ["store", "shop", "market"].any (fun k => strContains t k)) then "shop"
  else "other"

/-- C5 (amended): `_infer_category` scans the provider types in list order
and returns the first type's earliest matching bucket — type order, not
bucket order, has priority — with `"other"` when no type matches any
bucket. -/
theorem c5_infer_category_type_order :
    ∀ types : List String,
      inferCategory types = ((types.map pyLower).findSome? bucketOf).getD "other" := by
  intro types
  unfold inferCategory
  induction types.map pyLower with
  | nil => rfl
  | cons t rest ih =>
    simp only [inferCategoryGo, List.findSome?_cons]
    cases h : bucketOf t <;> simp [h, ih]

/-- C5 (counterexample): for the type list `["cafe", "restaurant"]` the code
returns `"cafe"` (the first type wins) whereas the claimed bucket-priority
order would return `"food"` (the `restaurant` keyword sits in the earlier
bucket). -/
theorem c5_counterexample :
    inferCategory ["cafe", "restaurant"] = "cafe" ∧
    inferCategoryBucketFirst ["cafe", "restaurant"] = "food" ∧
    ("cafe" : String) ≠ "food" := by
  refine ⟨?_, ?_, ?_⟩ <;> decide

/-! ## Claim C4: the frame of `_update_aggregate` -/

/-- Lookup on a cons whose head matches. -/
theorem aggLookup_cons_pos (q : Nat × AggRow) (rest : List (Nat × AggRow)) (pid : Nat)
    (h : q.1 = pid) : aggLookup (q :: rest) pid = some q.2 := by
  unfold aggLookup
  rw [List.find?_cons_of_pos _ (by simp [h])]

/-- Lookup on a cons whose head does not match. -/
theorem aggLookup_cons_neg (q : Nat × AggRow) (rest : List (Nat × AggRow)) (pid : Nat)
    (h : ¬ q.1 = pid) : aggLookup (q :: rest) pid = aggLookup rest pid := by
  unfold aggLookup
  rw [List.find?_cons_of_neg _ (by simp [h])]

/-- Appending a row for a fresh key is found by the lookup. -/
theorem aggLookup_append_none (l : List (Nat × AggRow)) (pid : Nat) (a : AggRow)
    (h : aggLookup l pid = none) : aggLookup (l ++ [(pid, a)]) pid = some a := by
  induction l with
  | nil => rw [List.nil_append, aggLookup_cons_pos _ _ _ rfl]
  | cons q rest ih =>
    by_cases hq : q.1 = pid
    · rw [aggLookup_cons_pos q rest pid hq] at h
      exact absurd h (by simp)
    · rw [aggLookup_cons_neg q rest pid hq] at h
      rw [List.cons_append, aggLookup_cons_neg q _ pid hq]
      exact ih h

/-- Replacing the row of a present key is found by the lookup. -/
theorem aggLookup_map_update (l : List (Nat × AggRow)) (pid : Nat) (a b : AggRow)
    (h : aggLookup l pid = some b) :
    aggLookup (l.map (fun p => if p.1 = pid then (p.1, a) else p)) pid = some a := by
  induction l with
  | nil => rw [aggLookup] at h; simp [List.find?] at h
  | cons q rest ih =>
    rw [List.map_cons]
    by_cases hq : q.1 = pid
    · rw [if_pos hq, aggLookup_cons_pos (q.1, a) _ pid hq]
    · rw [if_neg hq, aggLookup_cons_neg _ _ _ hq]
      rw [aggLookup_cons_neg q rest pid hq] at h
      exact ih h

/-- C4 (amended): recomputing a POI's aggregate (after an accepted signal)
writes only the `poi_aggregates` table: the refreshed `updated_at` belongs to
the POIAggregate row (set to the recomputation instant, in both the replace
and the insert branch), while the POI rows and the signal rows — every POI
field, `updated_at` included — are left unchanged. -/
theorem c4_update_aggregate_frame :
    ∀ (now : ℝ) (pid : Nat) (st : DbState),
      (updateAggregate now pid st).pois = st.pois ∧
      (updateAggregate now pid st).signals = st.signals ∧
      ∃ a, aggLookup (updateAggregate now pid st).aggregates pid = some a ∧
        a.updated_at = now := by
  intro now pid st
  unfold updateAggregate
  cases h : aggLookup st.aggregates pid with
  | none =>
    refine ⟨rfl, rfl, ?_⟩
    exact ⟨_, aggLookup_append_none st.aggregates pid _ h, rfl⟩
  | some b =>
    refine ⟨rfl, rfl, ?_⟩
    exact ⟨_, aggLookup_map_update st.aggregates pid _ b h, rfl⟩

/-- The POI row of the C4 counterexample: `updated_at = 5`. -/
def c4Poi : PlacePOI :=
  { id := 1, provider := "google", provider_place_id := "g1", name := "Fuunji",
    lat := 35.0, lng := 139.0, address := none, categories := some ["restaurant"],
    price_level := none, rating := none, user_ratings_total := none,
    created_at := 5, updated_at := 5 }

/-- The database of the C4 counterexample: one POI, no aggregate row yet. -/
def c4St : DbState :=
  { pois := [c4Poi], signals := [], aggregates := [], next_id := 2 }

/-- C4 (counterexample): recomputing the aggregate at instant 99 leaves the
POI row untouched — its `updated_at` stays 5, so the claim that the POI
row's `updated_at` is refreshed is false (only the POIAggregate row's is). -/
theorem c4_counterexample :
    (updateAggregate 99 1 c4St).pois = [c4Poi] ∧
    c4Poi.updated_at = 5 ∧ (5 : ℝ) ≠ 99 := by
  refine ⟨?_, rfl, by norm_num⟩
  unfold updateAggregate
  cases h : aggLookup c4St.aggregates 1 <;> rfl

/-! ## Claim C8: `compute_score` -/

/-- Unfolding `compute_score` on a non-empty signal list. -/
theorem compute_score_cons_eq (now : ℝ) (agg : AggJson) (x : SignalRow) (rest : List SignalRow) :
    compute_score now (x :: rest) agg =
      Real.log (1 + ((x :: rest).length : ℝ)) * 2.0 +
        ((x :: rest).map (fun s => s.confidence)).sum / ((x :: rest).length : ℝ) +
        max 0 (1 - ((⌊(now - newestOf (x :: rest)) / 86400⌋ : ℤ) : ℝ) / 365.0) := rfl

/-- Folding the newest-timestamp accumulator over identical signals is the
identity. -/
theorem foldl_max_replicate (n : Nat) (s : SignalRow) :
    (List.replicate n s).foldl (fun m x => max m x.created_at) s.created_at = s.created_at := by
  induction n with
  | zero => rfl
  | succ k ih =>
    rw [List.replicate_succ, List.foldl_cons, max_self]
    exact ih

/-- `compute_score` on `n` identical signals. -/
theorem compute_score_replicate (now : ℝ) (agg : AggJson) (s : SignalRow) (n : Nat)
    (h : n ≠ 0) :
    compute_score now (List.replicate n s) agg =
      Real.log (1 + (n : ℝ)) * 2.0 + s.confidence +
        max 0 (1 - ((⌊(now - s.created_at) / 86400⌋ : ℤ) : ℝ) / 365.0) := by
  obtain ⟨k, rfl⟩ : ∃ k, n = k + 1 :=
    ⟨n - 1, (Nat.succ_pred_eq_of_pos (Nat.pos_of_ne_zero h)).symm⟩
  rw [List.replicate_succ, compute_score_cons_eq]
  have hnew : newestOf (s :: List.replicate k s) = s.created_at := by
    unfold newestOf
    exact foldl_max_replicate k s
  have hsum : ((s :: List.replicate k s).map (fun s => s.confidence)).sum
      = ((k : ℝ) + 1) * s.confidence := by
    rw [List.map_cons, List.map_replicate, List.sum_cons, List.sum_replicate,
      nsmul_eq_mul]
    ring
  have hlen : (((s :: List.replicate k s).length : ℕ) : ℝ) = (k : ℝ) + 1 := by
    rw [List.length_cons, List.length_replicate]
    push_cast
    ring
  rw [hnew, hsum, hlen]
  have hk : ((k : ℝ) + 1) ≠ 0 := by positivity
  rw [mul_div_cancel_left₀ s.confidence hk]
  push_cast
  ring_nf

/-- C8: `compute_score` is 0 on no signals; on a non-empty signal list it is
`ln(1 + mentions)·2 + average confidence + max(0, 1 − age_days/365)` with
`age_days` the whole-day age of the newest signal at the evaluation instant;
it is a pure function of its inputs (determinism); and, holding the
confidence and timestamp fixed, it is strictly increasing in the mention
count. -/
theorem c8_compute_score :
    (∀ (now : ℝ) (agg : AggJson), compute_score now [] agg = 0) ∧
    (∀ (now : ℝ) (agg : AggJson) (sigs : List SignalRow), sigs ≠ [] →
      compute_score now sigs agg =
        Real.log (1 + (sigs.length : ℝ)) * 2.0 +
          (sigs.map (fun s => s.confidence)).sum / (sigs.length : ℝ) +
          max 0 (1 - ((⌊(now - newestOf sigs) / 86400⌋ : ℤ) : ℝ) / 365.0)) ∧
    (∀ (now : ℝ) (agg1 agg2 : AggJson) (sigs1 sigs2 : List SignalRow),
      sigs1 = sigs2 → compute_score now sigs1 agg1 = compute_score now sigs2 agg2) ∧
    (∀ (now : ℝ) (agg1 agg2 : AggJson) (s : SignalRow) (n1 n2 : Nat),
      0 < n1 → n1 < n2 →
      compute_score now (List.replicate n1 s) agg1 <
        compute_score now (List.replicate n2 s) agg2) := by
  refine ⟨fun _ _ => rfl, ?_, ?_, ?_⟩
  · intro now agg sigs h
    cases sigs with
    | nil => exact absurd rfl h
    | cons x rest => exact compute_score_cons_eq now agg x rest
  · intro now agg1 agg2 sigs1 sigs2 h
    rw [h]
    cases sigs2 with
    | nil => rfl
    | cons x rest => rw [compute_score_cons_eq, compute_score_cons_eq]
  · intro now agg1 agg2 s n1 n2 h1 h2
    rw [compute_score_replicate now agg1 s n1 (Nat.pos_iff_ne_zero.mp h1),
      compute_score_replicate now agg2 s n2 (by omega)]
    have hlog : Real.log (1 + (n1 : ℝ)) < Real.log (1 + (n2 : ℝ)) := by
      apply Real.log_lt_log (by positivity)
      have : (n1 : ℝ) < (n2 : ℝ) := by exact_mod_cast h2
      linarith
    linarith

/-- The signal used by the C8 witness. -/
def c8Sig : SignalRow :=
  { id := 0, poi_id := 1, source := "reddit", social_post_id := none,
    signal_json :=
      { vibe_tags := [], what_to_order := [], warnings := [], best_time_windows := [],
        why_special := "", price_level_hint := none, category := "food" },
    confidence := 0.8, created_at := 0 }

/-- C8 (witness): the theorem evaluated at concrete inputs. -/
theorem c8_compute_score_witness :
    compute_score 0 [] emptyAggJson = 0 ∧
    compute_score 0 ([c8Sig] : List SignalRow) emptyAggJson =
      Real.log (1 + ((([c8Sig] : List SignalRow)).length : ℝ)) * 2.0 +
        (([c8Sig] : List SignalRow).map (fun s => s.confidence)).sum /
          ((([c8Sig] : List SignalRow)).length : ℝ) +
        max 0 (1 - ((⌊((0 : ℝ) - newestOf [c8Sig]) / 86400⌋ : ℤ) : ℝ) / 365.0) ∧
    compute_score 0 (List.replicate 1 c8Sig) emptyAggJson <
      compute_score 0 (List.replicate 2 c8Sig) emptyAggJson :=
  ⟨c8_compute_score.1 0 emptyAggJson,
   c8_compute_score.2.1 0 emptyAggJson [c8Sig] (by simp),
   c8_compute_score.2.2.2 0 emptyAggJson emptyAggJson c8Sig 1 2 (by norm_num) (by norm_num)⟩

/-! ## Claims C6 and C7: `canonicalize_post` -/

/-- The `SequenceMatcher` value is nonnegative. -/
theorem seqMatchValue_nonneg (a b : List Char) : 0 ≤ seqMatchValue a b := by
  unfold seqMatchValue
  split_ifs
  · norm_num
  · positivity

/-- `name_similarity` is nonnegative. -/
theorem name_similarity_nonneg (a b : String) : 0 ≤ name_similarity a b := by
  simp only [name_similarity]
  split_ifs
  · exact le_refl 0
  · exact_mod_cast seqMatchValue_nonneg _ _

/-- `category_match_score` is nonnegative. -/
theorem category_match_score_nonneg (c : String) (ts : List String) :
    0 ≤ category_match_score c ts := by
  simp only [category_match_score]
  split_ifs <;> norm_num

/-- Without a location bias every match score is at least the neutral
proximity contribution `0.1`. -/
theorem score_match_none_ge (n c : String) (p : PlaceCandidate) :
    0.1 ≤ score_match n c p none := by
  rw [score_match_none_eq]
  have h1 := name_similarity_nonneg n p.name
  have h2 := category_match_score_nonneg c p.types
  nlinarith

/-- The best-score accumulator of `bestMatch` is the running maximum. -/
theorem bestMatch_snd_eq (pn cat : String) :
    ∀ (results : List PlaceCandidate) (acc : Option PlaceCandidate × ℝ),
      (results.foldl (fun acc sr =>
        let s := score_match pn cat sr none
        if acc.2 < s then (some sr, s) else acc) acc).2 =
      (results.map (fun r => score_match pn cat r none)).foldl max acc.2 := by
  intro results
  induction results with
  | nil => intro acc; rfl
  | cons r rest ih =>
    intro acc
    rw [List.foldl_cons, List.map_cons, List.foldl_cons, ih]
    congr 1
    by_cases h : acc.2 < score_match pn cat r none
    · rw [if_pos h]
      exact (max_eq_right h.le).symm
    · rw [if_neg h]
      exact (max_eq_left (le_of_not_lt h)).symm

/-- A fold of `max` stays below any strict upper bound of seed and list. -/
theorem foldl_max_lt (th : ℝ) :
    ∀ (l : List ℝ) (b : ℝ), b < th → (∀ x ∈ l, x < th) → l.foldl max b < th := by
  intro l
  induction l with
  | nil => intro b hb _; exact hb
  | cons x xs ih =>
    intro b hb h
    rw [List.foldl_cons]
    exact ih (max b x) (max_lt hb (h x (by simp))) (fun y hy => h y (by simp [hy]))

/-- A fold of `max` dominates its seed. -/
theorem foldl_max_seed_le : ∀ (l : List ℝ) (b : ℝ), b ≤ l.foldl max b := by
  intro l
  induction l with
  | nil => intro b; exact le_refl b
  | cons x xs ih =>
    intro b
    rw [List.foldl_cons]
    exact le_trans (le_max_left b x) (ih (max b x))

/-- A fold of `max` dominates every list element. -/
theorem foldl_max_le_of_mem :
    ∀ (l : List ℝ) (b x : ℝ), x ∈ l → x ≤ l.foldl max b := by
  intro l
  induction l with
  | nil => intro b x hx; simp at hx
  | cons y ys ih =>
    intro b x hx
    rw [List.foldl_cons]
    rcases List.mem_cons.mp hx with h | h
    · rw [h]
      exact le_trans (le_max_right b y) (foldl_max_seed_le ys (max b y))
    · exact ih (max b y) x h

/-- A fold of `max` is the seed or a list element. -/
theorem foldl_max_mem :
    ∀ (l : List ℝ) (b : ℝ), l.foldl max b = b ∨ l.foldl max b ∈ l := by
  intro l
  induction l with
  | nil => intro b; exact Or.inl rfl
  | cons x xs ih =>
    intro b
    rw [List.foldl_cons]
    rcases ih (max b x) with h | h
    · rcases max_choice b x with hm | hm
      · exact Or.inl (h.trans hm)
      · exact Or.inr (by rw [h, hm]; simp)
    · exact Or.inr (List.mem_cons_of_mem x h)

/-- C6: when every returned search result scores below the threshold, the
candidate is reported unmatched with reason `"below_threshold"` carrying the
best score achieved (the maximum over the results, attained by one of them),
exactly one search query is issued, and the database state is unchanged — no
POI row and no POISignal row is created. -/
theorem c6_below_threshold :
    ∀ (search : String → Except String (List PlaceCandidate)) (ps : Option String)
      (pid : Nat) (th now : ℝ) (st : DbState) (c : Candidate)
      (results : List PlaceCandidate),
      c.place_name ≠ "" →
      search (buildQuery c) = Except.ok results →
      results ≠ [] →
      (∀ r ∈ results, score_match c.place_name c.category r none < th) →
      processCandidate search ps pid th now st c =
        (st, none,
          some { candidate := c, reason := "below_threshold",
                 best_score := some ((results.map
                   (fun r => score_match c.place_name c.category r none)).foldl max 0) },
          [buildQuery c]) ∧
      (∃ r ∈ results,
        (results.map (fun r => score_match c.place_name c.category r none)).foldl max 0 =
          score_match c.place_name c.category r none) ∧
      (∀ r ∈ results, score_match c.place_name c.category r none ≤
        (results.map (fun r => score_match c.place_name c.category r none)).foldl max 0) := by
  intro search ps pid th now st c results h1 h2 h3 h4
  obtain ⟨r0, rest, rfl⟩ : ∃ r0 rest, results = r0 :: rest := by
    cases results with
    | nil => exact absurd rfl h3
    | cons a l => exact ⟨a, l, rfl⟩
  have hth : (0 : ℝ) < th := lt_of_le_of_lt (by norm_num) <|
    lt_of_le_of_lt (score_match_none_ge c.place_name c.category r0) (h4 r0 (by simp))
  have hfold_lt : ((r0 :: rest).map (fun r => score_match c.place_name c.category r none)).foldl max 0 < th := by
    apply foldl_max_lt th _ 0 hth
    intro x hx
    obtain ⟨r, hr, rfl⟩ := List.mem_map.mp hx
    exact h4 r hr
  have hbm := bestMatch_snd_eq c.place_name c.category (r0 :: rest) (none, 0)
  rcases hb : bestMatch c.place_name c.category (r0 :: rest) with ⟨bp, bs⟩
  have hb' : (r0 :: rest).foldl (fun acc sr =>
      let s := score_match c.place_name c.category sr none
      if acc.2 < s then (some sr, s) else acc) ((none : Option PlaceCandidate), (0 : ℝ))
      = (bp, bs) := hb
  have hbs : bs = ((r0 :: rest).map
      (fun r => score_match c.place_name c.category r none)).foldl max 0 := by
    have h' := hbm
    rw [hb'] at h'
    simpa using h'
  refine ⟨?_, ?_, ?_⟩
  · simp only [processCandidate]
    rw [if_neg h1, h2]
    cases bp with
    | none =>
      simp only [hb]
      rw [hbs]
    | some bp' =>
      simp only [hb]
      rw [if_pos (show bs < th from by rw [hbs]; exact hfold_lt), hbs]
  · have hge : (0.1 : ℝ) ≤ ((r0 :: rest).map (fun r => score_match c.place_name c.category r none)).foldl max 0 :=
      le_trans (score_match_none_ge c.place_name c.category r0)
        (foldl_max_le_of_mem _ 0 _ (by simp))
    rcases foldl_max_mem ((r0 :: rest).map (fun r => score_match c.place_name c.category r none)) 0 with h | h
    · rw [h] at hge; norm_num at hge
    · obtain ⟨r, hr, hrr⟩ := List.mem_map.mp h
      exact ⟨r, hr, hrr.symm⟩
  · intro r hr
    exact foldl_max_le_of_mem _ 0 _ (List.mem_map.mpr ⟨r, hr, rfl⟩)

/-- C7: when the latest extraction has zero candidates, `canonicalize_post`
issues no search query at all, returns empty linked and unmatched lists with
no error, and leaves the database untouched. -/
theorem c7_zero_candidates :
    ∀ (search : String → Except String (List PlaceCandidate)) (ps : Option String)
      (pid : Nat) (th now : ℝ) (st : DbState) (ext : Extraction),
      ext.candidates = [] →
      canonicalize_post search (some ext) ps pid th now st =
        ({ created_or_linked_pois := [], unmatched_candidates := [], error := none }, st, []) := by
  intro search ps pid th now st ext h
  simp only [canonicalize_post, h, List.foldl_nil]

/-- The search result of the C6 witness: an empty name (name similarity 0)
and a type matching no keyword. -/
def c6Res : PlaceCandidate :=
  { place_id := "r1", name := "", lat := 0, lng := 0, address := none, types := ["x"],
    rating := none, user_ratings_total := none, price_level := none }

/-- The candidate of the C6 witness. -/
def c6Cand : Candidate :=
  { place_name := "Sushi Q", city_hint := "", landmark_hint := "", address_hint := "",
    category := "other", vibe_tags := [], what_to_order := [], warnings := [],
    best_time_windows := [], why_special := "", price_level_hint := none,
    confidence := 0.9 }

/-- The empty database of the C6 witness. -/
def c6St : DbState := { pois := [], signals := [], aggregates := [], next_id := 1 }

/-- C6 (witness): the theorem applied at a concrete candidate whose best
score (0·0.5 + 0.5·0.3 + 0.5·0.2 = 0.25) is below the default threshold. -/
theorem c6_below_threshold_witness :
    processCandidate (fun _ => Except.ok [c6Res]) none 7 0.55 0 c6St c6Cand =
      (c6St, none,
        some { candidate := c6Cand, reason := "below_threshold",
               best_score := some ((([c6Res] : List PlaceCandidate).map
                 (fun r => score_match c6Cand.place_name c6Cand.category r none)).foldl max 0) },
        [buildQuery c6Cand]) :=
  (c6_below_threshold (fun _ => Except.ok [c6Res]) none 7 0.55 0 c6St c6Cand [c6Res]
    (by decide) rfl (by simp)
    (by
      intro r hr
      rw [List.mem_singleton] at hr
      subst hr
      rw [score_match_none_eq]
      have hns : name_similarity c6Cand.place_name c6Res.name = 0 := by
        simp only [c6Cand, c6Res, name_similarity]
        rw [if_pos (Or.inr (by decide))]
      have hcs : category_match_score c6Cand.category c6Res.types = 0.5 := by
        simp only [c6Cand, c6Res, category_match_score]
        rw [if_pos (by decide)]
      rw [hns, hcs]
      norm_num)).1

/-- C7 (witness): the theorem applied at a concrete empty extraction. -/
theorem c7_zero_candidates_witness :
    canonicalize_post (fun _ => Except.ok []) (some ⟨[]⟩) none 7 0.55 0 c6St =
      ({ created_or_linked_pois := [], unmatched_candidates := [], error := none },
        c6St, []) :=
  c7_zero_candidates (fun _ => Except.ok []) none 7 0.55 0 c6St ⟨[]⟩ rfl

/-! ## Claim C10: the derived confidence of `suggest_detours` -/

/-- The POI of the C10 run: sits exactly at the (degenerate) route, has no
aggregate, and its name contains the token "ramen". -/
def c10Poi : PlacePOI :=
  { id := 3, provider := "google", provider_place_id := "g10", name := "Ramen Shop",
    lat := 0, lng := 0, address := none, categories := some ["restaurant"],
    price_level := none, rating := none, user_ratings_total := none,
    created_at := 0, updated_at := 0 }

/-- The POI table of the C10 run. -/
def c10Db : List (PlacePOI × Option AggRow) := [(c10Poi, none)]

/-- The single retrieved memory of the C10 run: a constraint mentioning
"ramen". -/
def c10Mem : MemoryRow := { text := "avoid ramen today", type := MemType.constraint }

/-- The place-details oracle of the C10 run (never consulted: the run has
`must_be_open = false`). -/
def c10Details : String → Except Unit (Option (Option Bool)) := fun _ => Except.ok none

/-- The candidate produced by the collection loop of the C10 run. -/
def c10Cand : RankCand :=
  { poi := c10Poi, aggregate := none, corridor_dist := 0, detour_mins := 0,
    social_score := 0, agg_json := emptyAggJson, rank_score := 0, is_open := none }

/-- The padded bounding box of the degenerate route at the origin. -/
theorem bbox_zero_eval :
    boundingBox 0 0 0 0 2 = ⟨-(2 / 111), 2 / 111, -(2 / 111), 2 / 111⟩ := by
  simp only [boundingBox, radians]
  norm_num [BBox.mk.injEq, Real.cos_zero]

/-- The bounding-box query keeps the C10 POI. -/
theorem bboxRows_c10 : bboxRows (boundingBox 0 0 0 0 2) c10Db = c10Db := by
  rw [bbox_zero_eval]
  simp only [c10Db, bboxRows]
  rw [if_pos (by norm_num [c10Poi])]

/-- The collection loop keeps the C10 POI with zero corridor distance and
zero detour minutes. -/
theorem collectCandidates_c10 :
    collectCandidates 0 0 0 0 2 "any" none 15 c10Db = [c10Cand] := by
  have hh : haversine_km c10Poi.lat c10Poi.lng 0 0 = 0 := by
    norm_num [c10Poi, haversine_self]
  have hp2s : point_to_segment_distance_km c10Poi.lat c10Poi.lng 0 0 0 0 = 0 := by
    unfold point_to_segment_distance_km
    rw [if_pos (by norm_num)]
    exact hh
  have hwd : is_within_corridor c10Poi.lat c10Poi.lng 0 0 0 0 2 = (True, 0) := by
    unfold is_within_corridor
    rw [hp2s]
    norm_num
  have hdet : estimate_detour_minutes 0 0 c10Poi.lat c10Poi.lng 0 0 = 0 := by
    unfold estimate_detour_minutes
    rw [hh, show haversine_km 0 0 c10Poi.lat c10Poi.lng = 0 from by
      norm_num [c10Poi, haversine_self], haversine_self]
    norm_num
  simp only [c10Db, collectCandidates, hwd, hdet]
  rw [if_neg (by simp), if_neg (by simp [categoryKeep]),
    if_neg (by simp [priceKeep, c10Poi]), if_neg (by norm_num)]
  rfl

/-- The C10 candidate after the base-ranking pass. -/
def c10Cand04 : RankCand :=
  { poi := c10Poi, aggregate := none, corridor_dist := 0, detour_mins := 0,
    social_score := 0, agg_json := emptyAggJson, rank_score := 0.4, is_open := none }

/-- The C10 candidate after the memory-penalty pass. -/
def c10CandFinal : RankCand :=
  { poi := c10Poi, aggregate := none, corridor_dist := 0, detour_mins := 0,
    social_score := 0, agg_json := emptyAggJson, rank_score := 0.4 - 0.5, is_open := none }

/-- The base rank of the C10 candidate: `0·0.6 + 1·0.4 = 0.4`. -/
theorem rankBase_c10 : rankBase 2 c10Cand = c10Cand04 := by
  simp only [rankBase, c10Cand, c10Cand04]
  norm_num [RankCand.mk.injEq, max_eq_right]

/-- The memory reranking of the C10 run: one matching constraint memory
subtracts 0.5. -/
theorem rerank_c10 :
    applyMemoryReranking (Except.ok [c10Mem]) [c10Cand04] = [c10CandFinal] := by
  simp only [applyMemoryReranking, c10Mem, c10Cand04, c10CandFinal,
    List.filter, List.map, List.foldl]
  norm_num [RankCand.mk.injEq]
  decide

/-- The C10 run end to end: one suggestion, built from the candidate whose
rank score was driven to `0.4 − 0.5` by the memory penalty. -/
theorem c10_run_eval :
    suggest_detours c10Db (Except.ok [c10Mem]) c10Details (some 1) 0 0 0 0 15 "any" none false 5 =
      [buildSuggestion c10CandFinal] := by
  simp only [suggest_detours,
    show corridor_buffer_km = (2 : ℝ) from by norm_num [corridor_buffer_km],
    bboxRows_c10, collectCandidates_c10, List.map, Option.isSome_some, if_true,
    rankBase_c10, rerank_c10, sortByRankDesc, insertByRank, List.take,
    Bool.false_eq_true, if_false]

/-- C10: every returned `DetourSuggestion` carries
`confidence = min(1, rank_score/5)` for the ranked candidate it was built
from — hence never above 1.0 — and the value is not clamped below zero: a
concrete run in which a constraint-memory penalty (−0.5, uncapped) drives
the candidate's rank score negative returns a negative confidence. -/
theorem c10_confidence :
    (∀ (db : List (PlacePOI × Option AggRow)) (rm : Except Unit (List MemoryRow))
      (gd : String → Except Unit (Option (Option Bool))) (uid : Option Nat)
      (olat olng dlat0 dlng0 mdm : ℝ) (cf : String) (pmax : Option ℤ) (mbo : Bool) (mr : Nat),
      ∀ s ∈ suggest_detours db rm gd uid olat olng dlat0 dlng0 mdm cf pmax mbo mr,
        (∃ c : RankCand, s = buildSuggestion c ∧ s.confidence = min 1 (c.rank_score / 5)) ∧
        s.confidence ≤ 1) ∧
    (∃ s ∈ suggest_detours c10Db (Except.ok [c10Mem]) c10Details (some 1)
        0 0 0 0 15 "any" none false 5,
      s.confidence < 0) := by
  constructor
  · intro db rm gd uid olat olng dlat0 dlng0 mdm cf pmax mbo mr s hs
    simp only [suggest_detours] at hs
    cases hcand : collectCandidates olat olng dlat0 dlng0 corridor_buffer_km cf pmax mdm
        (bboxRows (boundingBox olat olng dlat0 dlng0 corridor_buffer_km) db) with
    | nil =>
      rw [hcand] at hs
      exact absurd hs (List.not_mem_nil s)
    | cons c0 cs =>
      rw [hcand] at hs
      obtain ⟨c, _, rfl⟩ := List.mem_map.mp hs
      exact ⟨⟨c, rfl, rfl⟩, min_le_left _ _⟩
  · refine ⟨buildSuggestion c10CandFinal, by rw [c10_run_eval]; exact List.mem_singleton_self _, ?_⟩
    have h1 : (buildSuggestion c10CandFinal).confidence = min 1 (c10CandFinal.rank_score / 5) := rfl
    have h2 : c10CandFinal.rank_score = 0.4 - 0.5 := rfl
    rw [h1, h2]
    calc min (1 : ℝ) ((0.4 - 0.5) / 5) ≤ ((0.4 : ℝ) - 0.5) / 5 := min_le_right _ _
      _ < 0 := by norm_num

/-- C10 (witness): the theorem applied at the concrete C10 run — the
suggestion exists, its confidence respects the cap, and is negative. -/
theorem c10_confidence_witness :
    ∃ s ∈ suggest_detours c10Db (Except.ok [c10Mem]) c10Details (some 1)
        0 0 0 0 15 "any" none false 5,
      s.confidence ≤ 1 ∧ s.confidence < 0 := by
  obtain ⟨s, hs, hneg⟩ := c10_confidence.2
  exact ⟨s, hs,
    (c10_confidence.1 c10Db (Except.ok [c10Mem]) c10Details (some 1)
      0 0 0 0 15 "any" none false 5 s hs).2, hneg⟩

/-! ## Claim C1: empty results of `suggest_detours` carry no reason -/

/-- The POI of the C1 counterexample: inside the corridor but with an empty
category list, so the `"food"` filter drops it. -/
def c1Poi : PlacePOI :=
  { id := 4, provider := "google", provider_place_id := "g1c", name := "Somewhere",
    lat := 0, lng := 0, address := none, categories := some [],
    price_level := none, rating := none, user_ratings_total := none,
    created_at := 0, updated_at := 0 }

/-- The non-empty POI table of the C1 counterexample. -/
def c1Db2 : List (PlacePOI × Option AggRow) := [(c1Poi, none)]

/-- The place-details oracle of the C1 runs (never consulted). -/
def c1Details : String → Except Unit (Option (Option Bool)) := fun _ => Except.ok none

/-- The bounding-box query keeps the C1 POI. -/
theorem bboxRows_c1 : bboxRows (boundingBox 0 0 0 0 2) c1Db2 = c1Db2 := by
  rw [bbox_zero_eval]
  simp only [c1Db2, bboxRows]
  rw [if_pos (by norm_num [c1Poi])]

/-- The collection loop drops the C1 POI at the category filter. -/
theorem collectCandidates_c1 :
    collectCandidates 0 0 0 0 2 "food" none 15 c1Db2 = [] := by
  have hh : haversine_km c1Poi.lat c1Poi.lng 0 0 = 0 := by
    norm_num [c1Poi, haversine_self]
  have hp2s : point_to_segment_distance_km c1Poi.lat c1Poi.lng 0 0 0 0 = 0 := by
    unfold point_to_segment_distance_km
    rw [if_pos (by norm_num)]
    exact hh
  have hwd : is_within_corridor c1Poi.lat c1Poi.lng 0 0 0 0 2 = (True, 0) := by
    unfold is_within_corridor
    rw [hp2s]
    norm_num
  simp only [c1Db2, collectCandidates, hwd]
  rw [if_neg (by simp), if_pos (by decide)]

/-- The run with no POIs at all returns the bare empty list. -/
theorem c1_run1_eval (rm : Except Unit (List MemoryRow))
    (gd : String → Except Unit (Option (Option Bool))) :
    suggest_detours [] rm gd none 0 0 0 0 15 "food" none false 5 = [] := rfl

/-- The run whose only POI is filtered out returns the bare empty list. -/
theorem c1_run2_eval (rm : Except Unit (List MemoryRow))
    (gd : String → Except Unit (Option (Option Bool))) :
    suggest_detours c1Db2 rm gd none 0 0 0 0 15 "food" none false 5 = [] := by
  simp only [suggest_detours,
    show corridor_buffer_km = (2 : ℝ) from by norm_num [corridor_buffer_km],
    bboxRows_c1, collectCandidates_c1]

/-- C1 (counterexample): two different empty-result situations — no POI rows
at all versus a POI present in the corridor but removed by the category
filter — produce byte-identical responses: a bare empty suggestion list and
the constant note.  No reason string distinguishing the empty cases is
returned to the caller. -/
theorem c1_counterexample :
    suggestEndpoint [] (Except.ok []) c1Details none 0 0 0 0 15 "food" none false =
      suggestEndpoint c1Db2 (Except.ok []) c1Details none 0 0 0 0 15 "food" none false ∧
    ([] : List (PlacePOI × Option AggRow)) ≠ c1Db2 := by
  constructor
  · unfold suggestEndpoint
    rw [c1_run1_eval (Except.ok []) c1Details, c1_run2_eval (Except.ok []) c1Details]
  · simp [c1Db2]

/-- C1 (amended): an empty outcome of `suggest_detours` is returned as a bare
empty list — the single reason string of the source goes only to the logger —
and the HTTP response carries, besides the suggestions, only the corridor
width and a constant note; whenever the corridor/filter pipeline leaves no
candidates the response's suggestion list is empty, with nothing
distinguishing which step emptied it. -/
theorem c1_empty_result :
    ∀ (db : List (PlacePOI × Option AggRow)) (rm : Except Unit (List MemoryRow))
      (gd : String → Except Unit (Option (Option Bool))) (uid : Option Nat)
      (olat olng dlat0 dlng0 mdm : ℝ) (cf : String) (pmax : Option ℤ) (mbo : Bool),
      (suggestEndpoint db rm gd uid olat olng dlat0 dlng0 mdm cf pmax mbo).note = detourNote ∧
      (suggestEndpoint db rm gd uid olat olng dlat0 dlng0 mdm cf pmax mbo).corridor_buffer_km
        = corridor_buffer_km ∧
      (collectCandidates olat olng dlat0 dlng0 corridor_buffer_km cf pmax mdm
          (bboxRows (boundingBox olat olng dlat0 dlng0 corridor_buffer_km) db) = [] →
        (suggestEndpoint db rm gd uid olat olng dlat0 dlng0 mdm cf pmax mbo).suggestions = []) := by
  intro db rm gd uid olat olng dlat0 dlng0 mdm cf pmax mbo
  refine ⟨rfl, rfl, ?_⟩
  intro h
  simp only [suggestEndpoint, suggest_detours, h, List.map_nil]

/-- C1 (witness): the amended claim at a concrete empty run. -/
theorem c1_empty_result_witness :
    (suggestEndpoint [] (Except.ok []) c1Details none 0 0 0 0 15 "food" none false).note
        = detourNote ∧
    (suggestEndpoint [] (Except.ok []) c1Details none 0 0 0 0 15 "food" none false).suggestions
        = [] :=
  ⟨(c1_empty_result [] (Except.ok []) c1Details none 0 0 0 0 15 "food" none false).1,
   (c1_empty_result [] (Except.ok []) c1Details none 0 0 0 0 15 "food" none false).2.2 rfl⟩

end

end Routed
